import Mathlib

/-!
Verification of the Session Coordinator of `sigle/src/modules/auth/NewAuthContext.tsx`.

The coordinator is a small state machine around three external collaborators:
the Wallet Connector (wagmi), the Decentralized Session Store (did-session)
and the Backend Session Exchange (next-auth).  We embed the coordinator as
pure Lean functions over an explicit environment `Env` in which every external
call is an `Except`-valued oracle, and thread a `CallLog` recording every
side-effecting call so that claims about call counts and storage frames can be
stated and proved.
-/

namespace Sigle

/-- A wallet account identifier: the `address` field from wagmi's `useAccount`. -/
abbrev Address := String

/-- An opaque wallet provider handle: the result of wagmi's `useProvider`. -/
abbrev Provider := String

/-- The `AuthUser` interface of NewAuthContext.tsx: the logged-in user record. -/
structure AuthUser where
  address : Address
deriving DecidableEq, Repr

/-- A did-session `DIDSession` handle as the coordinator observes it: the two
predicates it reads (`hasSession`, `isExpired`) and the string its `serialize`
method returns. -/
structure DIDSession where
  hasSession : Bool
  isExpired : Bool
  serialized : String
deriving DecidableEq, Repr

/-- The `serialize()` method of a `DIDSession` handle. -/
def DIDSession.serialize (s : DIDSession) : String := s.serialized

/-- The coordinator's state record, the `useState` payload of `AuthProvider`:
`isLoading`, `isAuthenticated`, optional `user` and optional `didSession`. -/
structure AuthState where
  isLoading : Bool
  isAuthenticated : Bool
  user : Option AuthUser
  didSession : Option DIDSession
deriving DecidableEq, Repr

/-- The initial `useState` value in `AuthProvider`:
`{ isLoading: true, isAuthenticated: false }` with `user` and `didSession`
absent (undefined). -/
def initialState : AuthState :=
  { isLoading := true, isAuthenticated := false, user := none, didSession := none }

/-- The state committed on the precondition-unmet path of `loginWithCeramic`
and by `logout`: `isLoading=false, isAuthenticated=false, user=undefined,
didSession=undefined`. -/
def unauthState : AuthState :=
  { isLoading := false, isAuthenticated := false, user := none, didSession := none }

/-- The identity-linking adapter `new EthereumAuthProvider(provider, address)`. -/
structure EthereumAuthProvider where
  provider : Provider
  address : Address
deriving DecidableEq, Repr

/-- The options object passed to `DIDSession.authorize`:
`{ resources, nonce, domain }`. -/
structure AuthorizeOpts where
  resources : List String
  nonce : String
  domain : String
deriving DecidableEq, Repr

/-- An error value propagated from a rejected external call. -/
abbrev Err := String

/-- The external world as the coordinator sees it: `DIDSession.fromSession`,
`getCsrfToken`, `DIDSession.authorize`, `window.location.protocol`,
`window.location.host`, and next-auth's `signOut`.  Each fallible call is an
`Except`-valued oracle. -/
structure Env where
  fromSession : String → Except Err DIDSession
  getCsrfToken : Except Err String
  authorize : EthereumAuthProvider → AuthorizeOpts → Except Err DIDSession
  locationProtocol : String
  locationHost : String
  signOut : Except Err Unit

/-- A log of every side-effecting external call the coordinator makes, so that
call-count and frame claims can be stated. -/
structure CallLog where
  nonceCalls : Nat
  authorizeCalls : List (EthereumAuthProvider × AuthorizeOpts)
  fromSessionCalls : List String
  storageReads : Nat
  storageWrites : List String
  disconnectCalls : Nat
deriving DecidableEq, Repr

/-- The empty call log. -/
def CallLog.empty : CallLog :=
  { nonceCalls := 0, authorizeCalls := [], fromSessionCalls := [],
    storageReads := 0, storageWrites := [], disconnectCalls := 0 }

/-- What `loadCeramicSession` can touch: the value stored under the
localStorage key "didsession" (`none` when the key is absent) and the call
log.  The function has no access to the coordinator's state record. -/
structure StoreCtx where
  storage : Option String
  log : CallLog
deriving DecidableEq, Repr

/-- The full world of the coordinator: its state record, the localStorage
value under the key "didsession", and the call log. -/
structure World where
  state : AuthState
  storage : Option String
  log : CallLog
deriving DecidableEq, Repr

/-- The body of the `if (!session || (session.hasSession && session.isExpired))`
branch of `loadCeramicSession`: fetch a nonce via `getCsrfToken()`, compute
`domain` from `window.location`, call `DIDSession.authorize` with
`resources: ["ceramic://*"]`, and persist the serialized result with
`localStorage.setItem('didsession', ...)`. -/
def authorizeNewSession (env : Env) (ap : EthereumAuthProvider) (ctx : StoreCtx) :
    StoreCtx × Except Err DIDSession :=
  let ctx1 : StoreCtx := { ctx with log := { ctx.log with nonceCalls := ctx.log.nonceCalls + 1 } }
  match env.getCsrfToken with
  | .error e => (ctx1, .error e)
  | .ok nonce =>
    let domain := env.locationProtocol ++ "//" ++ env.locationHost
    let opts : AuthorizeOpts := { resources := ["ceramic://*"], nonce := nonce, domain := domain }
    let ctx2 : StoreCtx :=
      { ctx1 with log := { ctx1.log with authorizeCalls := ctx1.log.authorizeCalls ++ [(ap, opts)] } }
    match env.authorize ap opts with
    | .error e => (ctx2, .error e)
    | .ok newSession =>
      let ctx3 : StoreCtx :=
        { ctx2 with
          storage := some newSession.serialize,
          log := { ctx2.log with storageWrites := ctx2.log.storageWrites ++ [newSession.serialize] } }
      (ctx3, .ok newSession)

/-- `loadCeramicSession` of NewAuthContext.tsx: read the localStorage key
"didsession"; when the value is truthy (present and non-empty, per JS
truthiness), deserialize it with `DIDSession.fromSession`; when no session was
obtained, or the obtained one has `hasSession && isExpired`, authorize and
persist a fresh one. -/
def loadCeramicSession (env : Env) (ap : EthereumAuthProvider) (ctx : StoreCtx) :
    StoreCtx × Except Err DIDSession :=
  let ctx1 : StoreCtx := { ctx with log := { ctx.log with storageReads := ctx.log.storageReads + 1 } }
  match ctx.storage with
  | some s =>
    if s = "" then
      authorizeNewSession env ap ctx1
    else
      let ctx2 : StoreCtx :=
        { ctx1 with log := { ctx1.log with fromSessionCalls := ctx1.log.fromSessionCalls ++ [s] } }
      match env.fromSession s with
      | .error e => (ctx2, .error e)
      | .ok h =>
        if h.hasSession && h.isExpired then authorizeNewSession env ap ctx2
        else (ctx2, .ok h)
  | none => authorizeNewSession env ap ctx1

/-- `loginWithCeramic` of NewAuthContext.tsx.  When `!provider || !address`
(absent provider, or absent or empty address), commit the unauthenticated
state and return normally.  Otherwise build the `EthereumAuthProvider`, run
`loadCeramicSession`, and on success commit the authenticated state; a
rejection from `loadCeramicSession` propagates (second component `some e`)
and no state commit occurs. -/
def loginWithCeramic (env : Env) (provider : Option Provider) (address : Option Address)
    (w : World) : World × Option Err :=
  match provider, address with
  | some p, some a =>
    if a = "" then ({ w with state := unauthState }, none)
    else
      let ap : EthereumAuthProvider := { provider := p, address := a }
      match loadCeramicSession env ap { storage := w.storage, log := w.log } with
      | (ctx2, .error e) => ({ state := w.state, storage := ctx2.storage, log := ctx2.log }, some e)
      | (ctx2, .ok session) =>
        ({ state := { isLoading := false, isAuthenticated := true,
                      user := some { address := a }, didSession := some session },
           storage := ctx2.storage, log := ctx2.log }, none)
  | _, _ => ({ w with state := unauthState }, none)

/-- `logout` of NewAuthContext.tsx: call `wagmiDisconnect()`, then `await
nextAuthSignOut()`; only when the latter resolves does the `setState` commit
of the unauthenticated state run — a rejection propagates (second component
`some e`) with no state commit. -/
def logout (env : Env) (w : World) : World × Option Err :=
  let w1 : World := { w with log := { w.log with disconnectCalls := w.log.disconnectCalls + 1 } }
  match env.signOut with
  | .error e => (w1, some e)
  | .ok _ => ({ w1 with state := unauthState }, none)

/-- The coordinator states reachable from the initial `useState` value by any
sequence of transitions.  The `walletConnected` effect (the `useEffect` on
`status === 'connected'`) only invokes `loginWithCeramic`, so it is covered by
the `stepLogin` constructor. -/
inductive Reachable : AuthState → Prop where
  | init : Reachable initialState
  | stepLogin (env : Env) (p : Option Provider) (a : Option Address)
      (storage : Option String) (log : CallLog) {s : AuthState} :
      Reachable s →
      Reachable (loginWithCeramic env p a { state := s, storage := storage, log := log }).1.state
  | stepLogout (env : Env) (storage : Option String) (log : CallLog) {s : AuthState} :
      Reachable s →
      Reachable (logout env { state := s, storage := storage, log := log }).1.state

/-- A sample session handle used to instantiate witnesses. -/
def sampleSession : DIDSession :=
  { hasSession := true, isExpired := false, serialized := "sess1" }

/-- A sample environment in which every external call succeeds. -/
def sampleEnv : Env :=
  { fromSession := fun s => if s = "sess1" then .ok sampleSession else .error "badSession",
    getCsrfToken := .ok "nonce1",
    authorize := fun _ _ => .ok sampleSession,
    locationProtocol := "https:",
    locationHost := "app.sigle.io",
    signOut := .ok () }

/-- A sample environment in which every external call rejects. -/
def failEnv : Env :=
  { fromSession := fun _ => .error "fromSessionErr",
    getCsrfToken := .error "nonceErr",
    authorize := fun _ _ => .error "authErr",
    locationProtocol := "https:",
    locationHost := "app.sigle.io",
    signOut := .error "signOutErr" }

/-- A sample environment in which the nonce fetch succeeds but the
authorization call rejects. -/
def authFailEnv : Env :=
  { failEnv with getCsrfToken := .ok "nonce1" }

/-- C8: the coordinator's starting state, before any transition has committed,
is `isLoading=true, isAuthenticated=false, user=undefined, didSession=undefined`. -/
theorem initialState_spec :
    initialState.isLoading = true ∧ initialState.isAuthenticated = false ∧
    initialState.user = none ∧ initialState.didSession = none := by
  refine ⟨rfl, rfl, rfl, rfl⟩

/-- C6: `logout` never reads or writes the persisted session record: the
localStorage value under the key "didsession" and the storage-access log are
exactly those of the pre-state, whether the sign-out call resolves or rejects. -/
theorem logout_preserves_storage (env : Env) (w : World) :
    (logout env w).1.storage = w.storage ∧
    (logout env w).1.log.storageWrites = w.log.storageWrites ∧
    (logout env w).1.log.storageReads = w.log.storageReads := by
  unfold logout
  cases env.signOut <;> exact ⟨rfl, rfl, rfl⟩

/-- C4: when the provider handle or the address is absent, `loginWithCeramic`
commits the unauthenticated state and returns normally (no propagated error),
with no storage access, no nonce fetch and no authorization call: the whole
call log is unchanged. -/
theorem login_missing_provider_or_address (env : Env) (p : Option Provider)
    (a : Option Address) (w : World) (h : p = none ∨ a = none) :
    (loginWithCeramic env p a w).2 = none ∧
    (loginWithCeramic env p a w).1.state = unauthState ∧
    (loginWithCeramic env p a w).1.storage = w.storage ∧
    (loginWithCeramic env p a w).1.log = w.log := by
  rcases h with h | h
  · subst h
    cases a <;> exact ⟨rfl, rfl, rfl, rfl⟩
  · subst h
    cases p <;> exact ⟨rfl, rfl, rfl, rfl⟩

/-- C4 witness: the missing-provider scenario at a concrete input. -/
theorem login_missing_provider_or_address_witness :
    (loginWithCeramic sampleEnv none none
      { state := initialState, storage := none, log := CallLog.empty }).2 = none ∧
    (loginWithCeramic sampleEnv none none
      { state := initialState, storage := none, log := CallLog.empty }).1.state = unauthState ∧
    (loginWithCeramic sampleEnv none none
      { state := initialState, storage := none, log := CallLog.empty }).1.storage = none ∧
    (loginWithCeramic sampleEnv none none
      { state := initialState, storage := none, log := CallLog.empty }).1.log = CallLog.empty := by
  have h := login_missing_provider_or_address sampleEnv none none
    { state := initialState, storage := none, log := CallLog.empty } (Or.inl rfl)
  exact h

/-- C1: with provider and address present, when no persisted record exists
under "didsession" or the stored record deserializes to a handle with
`hasSession=true` and `isExpired=true`, `loginWithCeramic` calls `getCsrfToken`
exactly once, calls `authorize` exactly once with `resources=["ceramic://*"]`
and with that nonce and the locally computed origin as challenge parameters,
and writes the serialized result to the persisted record, overwriting any
prior value. -/
theorem login_fresh_session_authorizes_once (env : Env) (p : Provider) (a : Address)
    (st : AuthState) (lg : CallLog) (storage : Option String)
    (nonce : String) (h : DIDSession)
    (ha : a ≠ "")
    (hn : env.getCsrfToken = .ok nonce)
    (hau : env.authorize { provider := p, address := a }
      { resources := ["ceramic://*"], nonce := nonce,
        domain := env.locationProtocol ++ "//" ++ env.locationHost } = .ok h)
    (hst : storage = none ∨
      ∃ s h0, storage = some s ∧ s ≠ "" ∧ env.fromSession s = .ok h0 ∧
        h0.hasSession = true ∧ h0.isExpired = true) :
    (loginWithCeramic env (some p) (some a)
      { state := st, storage := storage, log := lg }).2 = none ∧
    (loginWithCeramic env (some p) (some a)
      { state := st, storage := storage, log := lg }).1.log.nonceCalls = lg.nonceCalls + 1 ∧
    (loginWithCeramic env (some p) (some a)
      { state := st, storage := storage, log := lg }).1.log.authorizeCalls =
      lg.authorizeCalls ++ [({ provider := p, address := a },
        { resources := ["ceramic://*"], nonce := nonce,
          domain := env.locationProtocol ++ "//" ++ env.locationHost })] ∧
    (loginWithCeramic env (some p) (some a)
      { state := st, storage := storage, log := lg }).1.storage = some h.serialize ∧
    (loginWithCeramic env (some p) (some a)
      { state := st, storage := storage, log := lg }).1.log.storageWrites =
      lg.storageWrites ++ [h.serialize] ∧
    (loginWithCeramic env (some p) (some a)
      { state := st, storage := storage, log := lg }).1.state =
      { isLoading := false, isAuthenticated := true,
        user := some { address := a }, didSession := some h } := by
  unfold loginWithCeramic loadCeramicSession authorizeNewSession
  rcases hst with h1 | ⟨s, h0, hs, hs0, hf, hh, he⟩
  · subst h1
    simp [ha, hn, hau]
  · subst hs
    simp [ha, hs0, hf, hh, he, hn, hau]

/-- C1 witness: the fresh-session scenario at a concrete input (address
"0xABC", empty storage, all external calls succeeding). -/
theorem login_fresh_session_authorizes_once_witness :
    (loginWithCeramic sampleEnv (some "prov") (some "0xABC")
      { state := initialState, storage := none, log := CallLog.empty }).2 = none ∧
    (loginWithCeramic sampleEnv (some "prov") (some "0xABC")
      { state := initialState, storage := none, log := CallLog.empty }).1.log.nonceCalls = 1 ∧
    (loginWithCeramic sampleEnv (some "prov") (some "0xABC")
      { state := initialState, storage := none, log := CallLog.empty }).1.storage =
      some "sess1" ∧
    (loginWithCeramic sampleEnv (some "prov") (some "0xABC")
      { state := initialState, storage := none, log := CallLog.empty }).1.state =
      { isLoading := false, isAuthenticated := true,
        user := some { address := "0xABC" }, didSession := some sampleSession } := by
  have h := login_fresh_session_authorizes_once sampleEnv "prov" "0xABC" initialState
    CallLog.empty none "nonce1" sampleSession (by decide) rfl rfl (Or.inl rfl)
  exact ⟨h.1, h.2.1, h.2.2.2.1, h.2.2.2.2.2⟩

/-- C2: with provider and address present and a non-expired persisted session
record stored, `loginWithCeramic` performs no nonce fetch and no authorization
call and commits the authenticated state whose `didSession` is the handle
obtained by deserializing the stored record; the stored record is untouched. -/
theorem login_reuses_unexpired_session (env : Env) (p : Provider) (a : Address)
    (st : AuthState) (lg : CallLog) (s : String) (h : DIDSession)
    (ha : a ≠ "") (hs : s ≠ "")
    (hf : env.fromSession s = .ok h)
    (hne : h.isExpired = false) :
    (loginWithCeramic env (some p) (some a)
      { state := st, storage := some s, log := lg }).2 = none ∧
    (loginWithCeramic env (some p) (some a)
      { state := st, storage := some s, log := lg }).1.log.authorizeCalls =
      lg.authorizeCalls ∧
    (loginWithCeramic env (some p) (some a)
      { state := st, storage := some s, log := lg }).1.log.nonceCalls = lg.nonceCalls ∧
    (loginWithCeramic env (some p) (some a)
      { state := st, storage := some s, log := lg }).1.storage = some s ∧
    (loginWithCeramic env (some p) (some a)
      { state := st, storage := some s, log := lg }).1.log.storageWrites =
      lg.storageWrites ∧
    (loginWithCeramic env (some p) (some a)
      { state := st, storage := some s, log := lg }).1.state =
      { isLoading := false, isAuthenticated := true,
        user := some { address := a }, didSession := some h } := by
  unfold loginWithCeramic loadCeramicSession
  simp [ha, hs, hf, hne]

/-- C2 witness: the reuse scenario at a concrete input (address "0xABC",
stored record "sess1" deserializing to a non-expired handle). -/
theorem login_reuses_unexpired_session_witness :
    (loginWithCeramic sampleEnv (some "prov") (some "0xABC")
      { state := initialState, storage := some "sess1", log := CallLog.empty }).2 = none ∧
    (loginWithCeramic sampleEnv (some "prov") (some "0xABC")
      { state := initialState, storage := some "sess1",
        log := CallLog.empty }).1.log.authorizeCalls = [] ∧
    (loginWithCeramic sampleEnv (some "prov") (some "0xABC")
      { state := initialState, storage := some "sess1",
        log := CallLog.empty }).1.log.nonceCalls = 0 ∧
    (loginWithCeramic sampleEnv (some "prov") (some "0xABC")
      { state := initialState, storage := some "sess1", log := CallLog.empty }).1.state =
      { isLoading := false, isAuthenticated := true,
        user := some { address := "0xABC" }, didSession := some sampleSession } := by
  have h := login_reuses_unexpired_session sampleEnv "prov" "0xABC" initialState
    CallLog.empty "sess1" sampleSession (by decide) (by decide) rfl rfl
  exact ⟨h.1, h.2.1, h.2.2.1, h.2.2.2.2.2⟩

/-- C5: a rejection of the stored-record deserialization, the nonce fetch, or
the authorization call propagates un-wrapped out of `loginWithCeramic`, with
no retry (each external call was made at most once) and no state commit (the
state record equals the pre-state) and no storage write. -/
theorem login_failure_propagates (env : Env) (p : Provider) (a : Address)
    (st : AuthState) (lg : CallLog) (ha : a ≠ "") :
    (∀ s e, s ≠ "" → env.fromSession s = .error e →
      (loginWithCeramic env (some p) (some a)
        { state := st, storage := some s, log := lg }).2 = some e ∧
      (loginWithCeramic env (some p) (some a)
        { state := st, storage := some s, log := lg }).1.state = st ∧
      (loginWithCeramic env (some p) (some a)
        { state := st, storage := some s, log := lg }).1.log.fromSessionCalls =
        lg.fromSessionCalls ++ [s] ∧
      (loginWithCeramic env (some p) (some a)
        { state := st, storage := some s, log := lg }).1.log.nonceCalls = lg.nonceCalls ∧
      (loginWithCeramic env (some p) (some a)
        { state := st, storage := some s, log := lg }).1.log.authorizeCalls =
        lg.authorizeCalls ∧
      (loginWithCeramic env (some p) (some a)
        { state := st, storage := some s, log := lg }).1.log.storageWrites =
        lg.storageWrites) ∧
    (∀ e, env.getCsrfToken = .error e →
      (loginWithCeramic env (some p) (some a)
        { state := st, storage := none, log := lg }).2 = some e ∧
      (loginWithCeramic env (some p) (some a)
        { state := st, storage := none, log := lg }).1.state = st ∧
      (loginWithCeramic env (some p) (some a)
        { state := st, storage := none, log := lg }).1.log.nonceCalls = lg.nonceCalls + 1 ∧
      (loginWithCeramic env (some p) (some a)
        { state := st, storage := none, log := lg }).1.log.authorizeCalls =
        lg.authorizeCalls ∧
      (loginWithCeramic env (some p) (some a)
        { state := st, storage := none, log := lg }).1.log.storageWrites =
        lg.storageWrites) ∧
    (∀ nonce e, env.getCsrfToken = .ok nonce →
      env.authorize { provider := p, address := a }
        { resources := ["ceramic://*"], nonce := nonce,
          domain := env.locationProtocol ++ "//" ++ env.locationHost } = .error e →
      (loginWithCeramic env (some p) (some a)
        { state := st, storage := none, log := lg }).2 = some e ∧
      (loginWithCeramic env (some p) (some a)
        { state := st, storage := none, log := lg }).1.state = st ∧
      (loginWithCeramic env (some p) (some a)
        { state := st, storage := none, log := lg }).1.log.nonceCalls = lg.nonceCalls + 1 ∧
      (loginWithCeramic env (some p) (some a)
        { state := st, storage := none, log := lg }).1.log.authorizeCalls =
        lg.authorizeCalls ++ [({ provider := p, address := a },
          { resources := ["ceramic://*"], nonce := nonce,
            domain := env.locationProtocol ++ "//" ++ env.locationHost })] ∧
      (loginWithCeramic env (some p) (some a)
        { state := st, storage := none, log := lg }).1.log.storageWrites =
        lg.storageWrites) := by
  refine ⟨?_, ?_, ?_⟩
  · intro s e hs hf
    unfold loginWithCeramic loadCeramicSession
    simp [ha, hs, hf]
  · intro e hn
    unfold loginWithCeramic loadCeramicSession authorizeNewSession
    simp [ha, hn]
  · intro nonce e hn hau
    unfold loginWithCeramic loadCeramicSession authorizeNewSession
    simp [ha, hn, hau]

/-- C5 witness: the three failure scenarios at concrete inputs — a malformed
stored record, a rejecting nonce fetch and a rejecting authorization call —
each propagating its error un-wrapped with the state record unchanged. -/
theorem login_failure_propagates_witness :
    (loginWithCeramic failEnv (some "prov") (some "0xABC")
      { state := initialState, storage := some "bad", log := CallLog.empty }).2 =
      some "fromSessionErr" ∧
    (loginWithCeramic failEnv (some "prov") (some "0xABC")
      { state := initialState, storage := some "bad", log := CallLog.empty }).1.state =
      initialState ∧
    (loginWithCeramic failEnv (some "prov") (some "0xABC")
      { state := initialState, storage := none, log := CallLog.empty }).2 =
      some "nonceErr" ∧
    (loginWithCeramic authFailEnv (some "prov") (some "0xABC")
      { state := initialState, storage := none, log := CallLog.empty }).2 =
      some "authErr" ∧
    (loginWithCeramic authFailEnv (some "prov") (some "0xABC")
      { state := initialState, storage := none, log := CallLog.empty }).1.state =
      initialState := by
  have h1 := login_failure_propagates failEnv "prov" "0xABC" initialState
    CallLog.empty (by decide)
  have h2 := login_failure_propagates authFailEnv "prov" "0xABC" initialState
    CallLog.empty (by decide)
  exact ⟨(h1.1 "bad" "fromSessionErr" (by decide) rfl).1,
    (h1.1 "bad" "fromSessionErr" (by decide) rfl).2.1,
    (h1.2.1 "nonceErr" rfl).1,
    (h2.2.2 "nonce1" "authErr" rfl rfl).1,
    (h2.2.2 "nonce1" "authErr" rfl rfl).2.1⟩

/-- A world whose state record is authenticated, used to exercise `logout`. -/
def authedWorld : World :=
  { state := { isLoading := false, isAuthenticated := true,
               user := some { address := "0xABC" }, didSession := some sampleSession },
    storage := some "sess1", log := CallLog.empty }

/-- C3 counterexample: `logout` awaits the sign-out call before the `setState`
commit, so when the sign-out call rejects the state record is not reset — from
an authenticated prior state the coordinator is still authenticated afterwards
and the rejection propagates. -/
theorem logout_reject_skips_reset :
    (logout failEnv authedWorld).1.state.isAuthenticated = true ∧
    (logout failEnv authedWorld).1.state = authedWorld.state ∧
    (logout failEnv authedWorld).2 = some "signOutErr" :=
  ⟨rfl, rfl, rfl⟩

/-- C3 amended: when the backend sign-out call resolves, `logout` commits
`isLoading=false, isAuthenticated=false, user=undefined, didSession=undefined`
regardless of the prior state (hence idempotent while sign-out keeps
resolving); the sign-out call is awaited before the state reset, so a
rejection propagates and no state commit occurs. -/
theorem logout_resets_when_signout_resolves (env : Env) (w : World)
    (h : env.signOut = .ok ()) :
    (logout env w).1.state = unauthState ∧ (logout env w).2 = none := by
  unfold logout
  simp [h]

/-- C3 witness: `logout` from an authenticated world in an environment whose
sign-out call resolves. -/
theorem logout_resets_when_signout_resolves_witness :
    (logout sampleEnv authedWorld).1.state = unauthState ∧
    (logout sampleEnv authedWorld).2 = none :=
  logout_resets_when_signout_resolves sampleEnv authedWorld rfl

/-- Shape lemma: every result state of `loginWithCeramic` is the unchanged
input state (failing path), the unauthenticated state (precondition-unmet
path), or an authenticated state carrying a present user (success path). -/
theorem loginWithCeramic_state_cases (env : Env) (p : Option Provider)
    (a : Option Address) (w : World) :
    (loginWithCeramic env p a w).1.state = w.state ∨
    (loginWithCeramic env p a w).1.state = unauthState ∨
    ∃ addr sess, (loginWithCeramic env p a w).1.state =
      { isLoading := false, isAuthenticated := true,
        user := some { address := addr }, didSession := some sess } := by
  cases p with
  | none => cases a <;> exact Or.inr (Or.inl rfl)
  | some pv =>
    cases a with
    | none => exact Or.inr (Or.inl rfl)
    | some av =>
      by_cases hav : av = ""
      · right; left; simp [loginWithCeramic, hav]
      · rcases hres : loadCeramicSession env { provider := pv, address := av }
          { storage := w.storage, log := w.log } with ⟨ctx2, r⟩
        cases r with
        | error e => left; simp [loginWithCeramic, hav, hres]
        | ok sess =>
          right; right
          exact ⟨av, sess, by simp [loginWithCeramic, hav, hres]⟩

/-- Shape lemma: every result state of `logout` is the unchanged input state
(rejecting sign-out) or the unauthenticated state. -/
theorem logout_state_cases (env : Env) (w : World) :
    (logout env w).1.state = w.state ∨ (logout env w).1.state = unauthState := by
  rcases hs : env.signOut with e | u
  · left; simp [logout, hs]
  · right; simp [logout, hs]

/-- C7: in every coordinator state reachable by any sequence of transitions
from the initial state, `isAuthenticated = true` implies that `user` is
present. -/
theorem reachable_authenticated_has_user (s : AuthState) (hr : Reachable s)
    (ha : s.isAuthenticated = true) : s.user ≠ none := by
  revert ha
  induction hr with
  | init =>
    intro ha
    exact absurd ha (by simp [initialState])
  | stepLogin env p a storage log hr ih =>
    intro ha
    rename_i sPrev
    rcases loginWithCeramic_state_cases env p a
        { state := sPrev, storage := storage, log := log } with h | h | ⟨addr, sess, h⟩
    · rw [h] at ha ⊢
      exact ih ha
    · rw [h] at ha
      exact absurd ha (by simp [unauthState])
    · rw [h]
      simp
  | stepLogout env storage log hr ih =>
    intro ha
    rename_i sPrev
    rcases logout_state_cases env
        { state := sPrev, storage := storage, log := log } with h | h
    · rw [h] at ha ⊢
      exact ih ha
    · rw [h] at ha
      exact absurd ha (by simp [unauthState])

/-- C7 witness: the authenticated state reached by a successful login from the
initial state has a present user. -/
theorem reachable_authenticated_has_user_witness :
    (loginWithCeramic sampleEnv (some "prov") (some "0xABC")
      { state := initialState, storage := none, log := CallLog.empty }).1.state.user ≠
      none :=
  reachable_authenticated_has_user _
    (Reachable.stepLogin sampleEnv (some "prov") (some "0xABC") none CallLog.empty
      Reachable.init) rfl

/-- C10: every state commit of a coordinator transition sets
`isLoading=false` — each transition either leaves the state record untouched
(no commit) or commits a state with `isLoading=false` — and consequently every
reachable state other than the initial `Loading` state has `isLoading=false`. -/
theorem commits_clear_isLoading :
    (∀ env p a w, (loginWithCeramic env p a w).1.state = w.state ∨
      (loginWithCeramic env p a w).1.state.isLoading = false) ∧
    (∀ env w, (logout env w).1.state = w.state ∨
      (logout env w).1.state.isLoading = false) ∧
    (∀ s, Reachable s → s = initialState ∨ s.isLoading = false) := by
  have hlogin : ∀ env p a w, (loginWithCeramic env p a w).1.state = w.state ∨
      (loginWithCeramic env p a w).1.state.isLoading = false := by
    intro env p a w
    rcases loginWithCeramic_state_cases env p a w with h | h | ⟨addr, sess, h⟩
    · exact Or.inl h
    · right; rw [h]; rfl
    · right; rw [h]
  have hlogout : ∀ env w, (logout env w).1.state = w.state ∨
      (logout env w).1.state.isLoading = false := by
    intro env w
    rcases logout_state_cases env w with h | h
    · exact Or.inl h
    · right; rw [h]; rfl
  refine ⟨hlogin, hlogout, ?_⟩
  intro s hr
  induction hr with
  | init => exact Or.inl rfl
  | stepLogin env p a storage log hr ih =>
    rename_i sPrev
    rcases hlogin env p a { state := sPrev, storage := storage, log := log } with h | h
    · rw [h]; exact ih
    · exact Or.inr h
  | stepLogout env storage log hr ih =>
    rename_i sPrev
    rcases hlogout env { state := sPrev, storage := storage, log := log } with h | h
    · rw [h]; exact ih
    · exact Or.inr h

/-- C10 witness: the state reached by a `logout` step from the initial state
satisfies the reachable-state disjunct of the theorem. -/
theorem commits_clear_isLoading_witness :
    (logout sampleEnv
      { state := initialState, storage := none, log := CallLog.empty }).1.state =
      initialState ∨
    (logout sampleEnv
      { state := initialState, storage := none, log := CallLog.empty }).1.state.isLoading =
      false :=
  commits_clear_isLoading.2.2 _
    (Reachable.stepLogout sampleEnv none CallLog.empty Reachable.init)

/-- Modelled from the spec: the Decentralized Session Store is the external
`did-session` library, whose sources are not part of this repository.  Section
6 of the spec gives its contract (`authorize`, `fromSession`, a handle with
`serialize`, `hasSession`, `isExpired`) and the glossary describes a handle as
a serializable, time-bounded credential with an expiry.  We model a handle as
its presence bit and expiry instant. -/
structure StoreSession where
  hasSession : Bool
  expiresAt : Nat
deriving DecidableEq, Repr

/-- Modelled from the spec: the expiry predicate of a store handle at a given
instant — a time-bounded credential is expired once its expiry instant has
been reached. -/
def StoreSession.isExpired (s : StoreSession) (now : Nat) : Bool :=
  decide (s.expiresAt ≤ now)

/-- Modelled from the spec: `serialize()` encodes a handle as a string — the
presence bit as a leading character and the expiry instant in unary. -/
def StoreSession.serialize (s : StoreSession) : String :=
  String.mk ((if s.hasSession then 'S' else 'N') :: List.replicate s.expiresAt 'x')

/-- Modelled from the spec: `fromSession` decodes a serialized handle. -/
def storeFromSession (str : String) : StoreSession :=
  match str with
  | ⟨[]⟩ => { hasSession := false, expiresAt := 0 }
  | ⟨c :: rest⟩ => { hasSession := c == 'S', expiresAt := rest.length }

/-- Modelled from the spec: `authorize` issues a fresh, present handle whose
expiry lies a positive lifetime after the issuing instant. -/
def storeAuthorize (now lifetime : Nat) : StoreSession :=
  { hasSession := true, expiresAt := now + lifetime }

/-- C9: applying `serialize()` and then `fromSession()` to a freshly
authorized handle yields that same handle back, and it has `hasSession=true`
and `isExpired=false` at the instant of authorization. -/
theorem serialize_fromSession_roundtrip (now lifetime : Nat) (h : 0 < lifetime) :
    storeFromSession (storeAuthorize now lifetime).serialize =
      storeAuthorize now lifetime ∧
    (storeFromSession (storeAuthorize now lifetime).serialize).hasSession = true ∧
    (storeFromSession (storeAuthorize now lifetime).serialize).isExpired now = false := by
  have hrt : storeFromSession (storeAuthorize now lifetime).serialize =
      storeAuthorize now lifetime := by
    simp [storeAuthorize, StoreSession.serialize, storeFromSession]
  refine ⟨hrt, ?_, ?_⟩
  · rw [hrt]
    rfl
  · rw [hrt]
    simp only [StoreSession.isExpired, storeAuthorize, decide_eq_false_iff_not]
    omega

/-- C9 witness: the round trip at the concrete instant 0 with lifetime 1. -/
theorem serialize_fromSession_roundtrip_witness :
    storeFromSession (storeAuthorize 0 1).serialize = storeAuthorize 0 1 ∧
    (storeFromSession (storeAuthorize 0 1).serialize).hasSession = true ∧
    (storeFromSession (storeAuthorize 0 1).serialize).isExpired 0 = false :=
  serialize_fromSession_roundtrip 0 1 (by decide)

end Sigle
